import Mathlib

/-!
Shallow embedding of `main.py` from the warp-plus key generator repository.

The script drives a fixed sequence of HTTP calls per iteration
(register primary, register referral, patch referrer + delete referral,
probe/revert license swap, read account state, delete primary), then
conditionally appends a record to a JSON file, pacing iterations with a
sleep.  We model the HTTP layer by an environment supplying each call's
response (or the exception the call raises), and each function returns
the list of requests it issued together with its Python result, errors
as `Except`.  Python `dict`/`list` JSON values are modelled by `JVal`,
the on-disk store by an optional list of records (`none` = file absent).
-/

namespace WarpKeys

/-- Exceptions the script can raise or receive from the HTTP client. -/
inductive PyErr where
  | httpError
  | keyError (field : String)
  | typeError
  | attributeError
  | indexError
deriving Repr, DecidableEq

/-- JSON-like Python values (results of `response.json()`). -/
inductive JVal where
  | jnull
  | jbool (b : Bool)
  | jint (n : Int)
  | jstr (s : String)
  | jarr (elems : List JVal)
  | jobj (fields : List (String × JVal))

/-- A single-quote character, used by Python `repr` of strings. -/
def squote : String := String.singleton (Char.ofNat 39)

mutual
/-- Python `repr` of a JSON-like value (as produced inside f-strings for
containers and by `repr` generally). -/
def pyRepr : JVal → String
  | .jnull => "None"
  | .jbool true => "True"
  | .jbool false => "False"
  | .jint n => toString n
  | .jstr s => squote ++ s ++ squote
  | .jarr elems => "[" ++ String.intercalate ", " (pyReprList elems) ++ "]"
  | .jobj fields => "\x7b" ++ String.intercalate ", " (pyReprFields fields) ++ "\x7d"

/-- Renders each element of a Python list with `pyRepr`. -/
def pyReprList : List JVal → List String
  | [] => []
  | v :: vs => pyRepr v :: pyReprList vs

/-- Renders each `key: value` entry of a Python dict. -/
def pyReprFields : List (String × JVal) → List String
  | [] => []
  | (k, v) :: fs => (squote ++ k ++ squote ++ ": " ++ pyRepr v) :: pyReprFields fs
end

/-- Python `str()` / f-string rendering of a JSON-like value: strings
render as themselves, containers and other values as their `repr`. -/
def pyStr : JVal → String
  | .jstr s => s
  | v => pyRepr v

/-- Python `str()` of a list of strings, e.g. `f'{selected_key}'` when
`selected_key` is a list: bracketed, comma-separated, single-quoted. -/
def pyStrList (l : List String) : String :=
  "[" ++ String.intercalate ", " (l.map (fun s => squote ++ s ++ squote)) ++ "]"

/-- Splits a character list on a separator character, keeping empty
pieces: the helper for `py_split`. -/
def split_chars (sep : Char) : List Char → List (List Char)
  | [] => [[]]
  | c :: cs =>
    let rest := split_chars sep cs
    if c = sep then [] :: rest
    else
      match rest with
      | r :: rs => (c :: r) :: rs
      | [] => [[c]]

/-- Python `s.split(sep)` for a one-character separator: empty pieces
are kept, and the empty string splits to `['']`. -/
def py_split (s : String) (sep : Char) : List String :=
  (split_chars sep s.data).map (fun cs => String.mk cs)

/-- Python subscription `v[k]`: field lookup in a dict, raising
`KeyError` when absent and `TypeError` on a non-dict. -/
def jget (v : JVal) (k : String) : Except PyErr JVal :=
  match v with
  | .jobj fields =>
    match fields.find? (fun p => p.1 == k) with
    | some p => .ok p.2
    | none => .error (.keyError k)
  | _ => .error .typeError

/-- Python truthiness of a JSON-like value. -/
def pyTruthy : JVal → Bool
  | .jnull => false
  | .jbool b => b
  | .jint n => n != 0
  | .jstr s => s != ""
  | .jarr elems => !elems.isEmpty
  | .jobj fields => !fields.isEmpty

/-- Python comparison `v != 0` (Python bools count as ints 0/1; values
of other types never equal the int 0). -/
def pyNeZero : JVal → Bool
  | .jint n => n != 0
  | .jbool b => b
  | _ => true

/-- Python `random.choice(l)` with the randomness source supplying an
index `rand`: raises `IndexError` on an empty sequence. -/
def random_choice {α : Type} (l : List α) (rand : Nat) : Except PyErr α :=
  match l.get? (rand % l.length) with
  | some a => .ok a
  | none => .error .indexError

/-- HTTP requests (and sleeps) the script issues, with path, the
`Authorization` header value where present, and the JSON body as
string pairs (f-strings make every field a string in the source). -/
inductive Req where
  | post (path : String)
  | patch (path : String) (auth : String) (body : List (String × String))
  | put (path : String) (auth : String) (body : List (String × String))
  | get (path : String) (auth : String)
  | delete (path : String) (auth : String)
  | sleep (seconds : Nat)
deriving Repr, DecidableEq

/-- A record appended to `GeneratedKeys.json`: a Python dict. -/
abbrev KeyInfo := List (String × JVal)

/-- The durable store: `none` when `GeneratedKeys.json` is absent. -/
abbrev Store := Option (List KeyInfo)

/-- Embeds `save_key_to_file`: create the file holding `[]` when absent,
then read the array, append `key_info`, and write it back. -/
def save_key_to_file (store : Store) (key_info : KeyInfo) : Store :=
  let store1 : Store :=
    match store with
    | none => some []
    | some data => some data
  match store1 with
  | some data => some (data ++ [key_info])
  | none => none

/-- Embeds `register_user`: POST `/reg`, then extract
`user_info['id']`, `user_info['account']['license']`,
`user_info['token']` from the response. -/
def register_user (resp : Except PyErr JVal) :
    List Req × Except PyErr (JVal × JVal × JVal) :=
  ([Req.post "/reg"], do
    let user_info ← resp
    let i ← jget user_info "id"
    let account ← jget user_info "account"
    let license ← jget account "license"
    let token ← jget user_info "token"
    return (i, license, token))

/-- Embeds `register_referral_user`: POST `/reg`, then extract
`referral_info['id']` and `referral_info['token']`. -/
def register_referral_user (resp : Except PyErr JVal) :
    List Req × Except PyErr (JVal × JVal) :=
  ([Req.post "/reg"], do
    let referral_info ← resp
    let i ← jget referral_info "id"
    let token ← jget referral_info "token"
    return (i, token))

/-- Embeds `add_referral_and_delete`: PATCH the primary account's
referrer field, then DELETE the referral account.  An exception from
the PATCH propagates before the DELETE is issued. -/
def add_referral_and_delete (patchResp deleteResp : Except PyErr JVal)
    (user_id user_token referral_id referral_token : JVal) :
    List Req × Except PyErr Unit :=
  let patchReq := Req.patch ("/reg/" ++ pyStr user_id)
      ("Bearer " ++ pyStr user_token) [("referrer", pyStr referral_id)]
  match patchResp with
  | .error e => ([patchReq], .error e)
  | .ok _ =>
    let deleteReq := Req.delete ("/reg/" ++ pyStr referral_id)
        ("Bearer " ++ pyStr referral_token)
    match deleteResp with
    | .error e => ([patchReq, deleteReq], .error e)
    | .ok _ => ([patchReq, deleteReq], .ok ())

/-- Embeds `swap_license_keys`: pick `selected_key = random.choice(keys)`,
PUT the probe license `f'{selected_key}'`, then PUT the revert license
`f'{initial_license}'`. -/
def swap_license_keys (putProbeResp putRevertResp : Except PyErr JVal)
    (keys : List (List String)) (rand : Nat)
    (user_id : JVal) (initial_license : JVal) (user_token : JVal) :
    List Req × Except PyErr Unit :=
  match random_choice keys rand with
  | .error e => ([], .error e)
  | .ok selected_key =>
    let probeReq := Req.put ("/reg/" ++ pyStr user_id ++ "/account")
        ("Bearer " ++ pyStr user_token) [("license", pyStrList selected_key)]
    match putProbeResp with
    | .error e => ([probeReq], .error e)
    | .ok _ =>
      let revertReq := Req.put ("/reg/" ++ pyStr user_id ++ "/account")
          ("Bearer " ++ pyStr user_token) [("license", pyStr initial_license)]
      match putRevertResp with
      | .error e => ([probeReq, revertReq], .error e)
      | .ok _ => ([probeReq, revertReq], .ok ())

/-- Embeds `get_updated_user_info`: GET the account state, then extract
`referral_count`, `license`, `warp_plus`, `quota`. -/
def get_updated_user_info (resp : Except PyErr JVal)
    (user_id user_token : JVal) :
    List Req × Except PyErr (JVal × JVal × JVal × JVal) :=
  ([Req.get ("/reg/" ++ pyStr user_id ++ "/account")
      ("Bearer " ++ pyStr user_token)], do
    let user_info ← resp
    let rc ← jget user_info "referral_count"
    let license ← jget user_info "license"
    let wp ← jget user_info "warp_plus"
    let quota ← jget user_info "quota"
    return (rc, license, wp, quota))

/-- Embeds `delete_user`: authenticated DELETE of the primary account;
the response is ignored but an exception propagates. -/
def delete_user (resp : Except PyErr JVal) (user_id user_token : JVal) :
    List Req × Except PyErr Unit :=
  ([Req.delete ("/reg/" ++ pyStr user_id) ("Bearer " ++ pyStr user_token)],
    do
      let _ ← resp
      return ())

/-- Responses (or raised exceptions) the remote API supplies for the
eight calls of one iteration, plus the randomness drawn in the swap. -/
structure IterEnv where
  regResp : Except PyErr JVal
  refResp : Except PyErr JVal
  patchResp : Except PyErr JVal
  deleteReferralResp : Except PyErr JVal
  putProbeResp : Except PyErr JVal
  putRevertResp : Except PyErr JVal
  getResp : Except PyErr JVal
  deleteUserResp : Except PyErr JVal
  rand : Nat

/-- The body of the `try` block of `generate_and_save_key`: the six
stages in source order, aborting at the first exception, then the
conditional `save_key_to_file({'Quota': quota, 'license': final_license})`
gated by `warp_plus and quota != 0`. -/
def generate_and_save_key_body (env : IterEnv) (keys : List (List String))
    (store : Store) : List Req × Except PyErr Store :=
  match register_user env.regResp with
  | (t1, .error e) => (t1, .error e)
  | (t1, .ok (user_id, initial_license, user_token)) =>
    match register_referral_user env.refResp with
    | (t2, .error e) => (t1 ++ t2, .error e)
    | (t2, .ok (referral_id, referral_token)) =>
      match add_referral_and_delete env.patchResp env.deleteReferralResp
          user_id user_token referral_id referral_token with
      | (t3, .error e) => (t1 ++ t2 ++ t3, .error e)
      | (t3, .ok _) =>
        match swap_license_keys env.putProbeResp env.putRevertResp keys
            env.rand user_id initial_license user_token with
        | (t4, .error e) => (t1 ++ t2 ++ t3 ++ t4, .error e)
        | (t4, .ok _) =>
          match get_updated_user_info env.getResp user_id user_token with
          | (t5, .error e) => (t1 ++ t2 ++ t3 ++ t4 ++ t5, .error e)
          | (t5, .ok (_referral_count, final_license, warp_plus, quota)) =>
            match delete_user env.deleteUserResp user_id user_token with
            | (t6, .error e) => (t1 ++ t2 ++ t3 ++ t4 ++ t5 ++ t6, .error e)
            | (t6, .ok _) =>
              let t := t1 ++ t2 ++ t3 ++ t4 ++ t5 ++ t6
              if pyTruthy warp_plus && pyNeZero quota then
                (t, .ok (save_key_to_file store
                  [("Quota", quota), ("license", final_license)]))
              else
                (t, .ok store)

/-- Embeds `generate_and_save_key`: the body under `try`, with
`except Exception` logging the error and leaving the store unchanged —
no exception escapes the iteration. -/
def generate_and_save_key (env : IterEnv) (keys : List (List String))
    (store : Store) : List Req × Store :=
  match generate_and_save_key_body env keys store with
  | (t, .ok store1) => (t, store1)
  | (t, .error _) => (t, store)

/-- Embeds `apply_delay_if_needed`: `time.sleep(45)` unless the current
index is the last one. -/
def apply_delay_if_needed (current_index total_count : Int) : List Req :=
  if current_index ≠ total_count - 1 then [Req.sleep 45] else []

/-- One pass of the loop body of `main`: run `generate_and_save_key`
for iteration `i`, then `apply_delay_if_needed(i, n)`, recording the
iteration's requests followed by its pacing sleeps. -/
def main_step (envs : Nat → IterEnv) (keys : List (List String)) (n : Nat)
    (acc : List (List Req) × Store) (i : Nat) : List (List Req) × Store :=
  let (t, store1) := generate_and_save_key (envs i) keys acc.2
  (acc.1 ++ [t ++ apply_delay_if_needed (i : Int) (n : Int)], store1)

/-- Embeds `main`: for `i in range(n)`, run `generate_and_save_key`
then `apply_delay_if_needed(i, n)`; returns the per-iteration request
traces and the final store. -/
def main (envs : Nat → IterEnv) (keys : List (List String)) (store0 : Store)
    (number_of_keys_to_generate : Nat) : List (List Req) × Store :=
  (List.range number_of_keys_to_generate).foldl
    (main_step envs keys number_of_keys_to_generate) ([], store0)

/-- Embeds line 22, `keys = [os.getenv('KEYS').split(',')]`: with the
variable absent, `None.split` raises `AttributeError`; otherwise the
module-level `keys` is a one-element list holding the split list. -/
def keys_of_env (kEnv : Option String) : Except PyErr (List (List String)) :=
  match kEnv with
  | none => .error .attributeError
  | some s => .ok [py_split s ',']

/-- The whole program: evaluate line 22 at import time (its exception
aborts the run before `main` issues any request), then run `main`. -/
def run_program (kEnv : Option String) (envs : Nat → IterEnv)
    (store0 : Store) (number_of_keys_to_generate : Nat) :
    Except PyErr (List (List Req) × Store) :=
  match keys_of_env kEnv with
  | .error e => .error e
  | .ok keys => .ok (main envs keys store0 number_of_keys_to_generate)

/-- An environment where every stage succeeds, parameterised by the
JSON field values the server returns: registration yields `uid`, `lic`
(nested under `account`), `tok`; the referral yields `rid`, `rtok`; the
state read yields `rc`, `flic`, a boolean `warp_plus` flag `wp` and an
integer `quota` `q`. -/
def good_env (uid lic tok rid rtok rc flic : JVal) (wp : Bool) (q : Int)
    (rand : Nat) : IterEnv where
  regResp := .ok (.jobj [("id", uid),
    ("account", .jobj [("license", lic)]), ("token", tok)])
  refResp := .ok (.jobj [("id", rid), ("token", rtok)])
  patchResp := .ok .jnull
  deleteReferralResp := .ok .jnull
  putProbeResp := .ok .jnull
  putRevertResp := .ok .jnull
  getResp := .ok (.jobj [("referral_count", rc), ("license", flic),
    ("warp_plus", .jbool wp), ("quota", .jint q)])
  deleteUserResp := .ok .jnull
  rand := rand

/-- The eight requests one fully successful iteration issues, in source
order: two registrations, the referrer patch, the referral delete, the
probe and revert license puts, the state read, and the primary delete. -/
def good_trace (uid tok rid rtok : JVal) (pool : List String) (lic : JVal) :
    List Req :=
  [Req.post "/reg",
   Req.post "/reg",
   Req.patch ("/reg/" ++ pyStr uid) ("Bearer " ++ pyStr tok)
     [("referrer", pyStr rid)],
   Req.delete ("/reg/" ++ pyStr rid) ("Bearer " ++ pyStr rtok),
   Req.put ("/reg/" ++ pyStr uid ++ "/account") ("Bearer " ++ pyStr tok)
     [("license", pyStrList pool)],
   Req.put ("/reg/" ++ pyStr uid ++ "/account") ("Bearer " ++ pyStr tok)
     [("license", pyStr lic)],
   Req.get ("/reg/" ++ pyStr uid ++ "/account") ("Bearer " ++ pyStr tok),
   Req.delete ("/reg/" ++ pyStr uid) ("Bearer " ++ pyStr tok)]

/-- An environment whose very first call raises a transport error, so
the iteration fails at the Registering stage. -/
def err_env : IterEnv where
  regResp := .error .httpError
  refResp := .error .httpError
  patchResp := .error .httpError
  deleteReferralResp := .error .httpError
  putProbeResp := .error .httpError
  putRevertResp := .error .httpError
  getResp := .error .httpError
  deleteUserResp := .error .httpError
  rand := 0

/-- Recognises the pacing sleeps in a trace. -/
def is_sleep : Req → Bool
  | .sleep _ => true
  | _ => false

/-- Number of pacing sleeps in a trace. -/
def sleeps (t : List Req) : Nat := (t.filter is_sleep).length

/-! ## Helper lemmas -/

/-- On the one-element `keys` list of line 22, `random.choice` always
returns that single element, whatever the randomness source supplies. -/
lemma random_choice_singleton {α : Type} (a : α) (rand : Nat) :
    random_choice [a] rand = .ok a := by
  simp [random_choice, Nat.mod_one]

/-- Result of `register_user` on a well-formed registration response. -/
lemma register_user_good (uid lic tok : JVal) :
    register_user (.ok (.jobj [("id", uid),
        ("account", .jobj [("license", lic)]), ("token", tok)])) =
      ([Req.post "/reg"], .ok (uid, lic, tok)) := rfl

/-- Result of `register_referral_user` on a well-formed response. -/
lemma register_referral_good (rid rtok : JVal) :
    register_referral_user (.ok (.jobj [("id", rid), ("token", rtok)])) =
      ([Req.post "/reg"], .ok (rid, rtok)) := rfl

/-- Result of `add_referral_and_delete` when both calls succeed. -/
lemma add_referral_good (uid utok rid rtok : JVal) :
    add_referral_and_delete (.ok .jnull) (.ok .jnull) uid utok rid rtok =
      ([Req.patch ("/reg/" ++ pyStr uid) ("Bearer " ++ pyStr utok)
          [("referrer", pyStr rid)],
        Req.delete ("/reg/" ++ pyStr rid) ("Bearer " ++ pyStr rtok)],
       .ok ()) := rfl

/-- Result of `swap_license_keys` on the singleton `keys` list when
both puts succeed. -/
lemma swap_good (pool : List String) (rand : Nat) (uid lic tok : JVal) :
    swap_license_keys (.ok .jnull) (.ok .jnull) [pool] rand uid lic tok =
      ([Req.put ("/reg/" ++ pyStr uid ++ "/account")
          ("Bearer " ++ pyStr tok) [("license", pyStrList pool)],
        Req.put ("/reg/" ++ pyStr uid ++ "/account")
          ("Bearer " ++ pyStr tok) [("license", pyStr lic)]],
       .ok ()) := by
  simp [swap_license_keys, random_choice_singleton]

/-- Result of `get_updated_user_info` on a well-formed read-back whose
`warp_plus` field is a boolean and whose `quota` field is an integer. -/
lemma get_updated_good (uid tok rc flic : JVal) (wp : Bool) (q : Int) :
    get_updated_user_info (.ok (.jobj [("referral_count", rc),
        ("license", flic), ("warp_plus", .jbool wp), ("quota", .jint q)]))
        uid tok =
      ([Req.get ("/reg/" ++ pyStr uid ++ "/account") ("Bearer " ++ pyStr tok)],
       .ok (rc, flic, .jbool wp, .jint q)) := rfl

/-- Result of `delete_user` on a successful delete. -/
lemma delete_user_good (uid tok : JVal) :
    delete_user (.ok .jnull) uid tok =
      ([Req.delete ("/reg/" ++ pyStr uid) ("Bearer " ++ pyStr tok)], .ok ()) :=
  rfl

/-- Full characterisation of `generate_and_save_key` on a successful
iteration: the eight-request trace, and the store extended with
`{'Quota': quota, 'license': final_license}` exactly when
`warp_plus and quota != 0` holds. -/
lemma generate_good_env (uid lic tok rid rtok rc flic : JVal) (wp : Bool)
    (q : Int) (rand : Nat) (pool : List String) (l : List KeyInfo) :
    generate_and_save_key (good_env uid lic tok rid rtok rc flic wp q rand)
        [pool] (some l) =
      (good_trace uid tok rid rtok pool lic,
       if wp && (q != 0) then
         some (l ++ [[("Quota", JVal.jint q), ("license", flic)]])
       else some l) := by
  simp only [generate_and_save_key, generate_and_save_key_body, good_env,
    register_user_good, register_referral_good, add_referral_good, swap_good,
    get_updated_good, delete_user_good, pyTruthy, pyNeZero, save_key_to_file]
  by_cases hc : (wp && (q != 0)) = true
  · simp only [hc, if_true, good_trace]
    rfl
  · simp only [hc, if_false, Bool.not_eq_true] at *
    simp only [hc, good_trace]
    rfl

/-- Sleep counts add over concatenated traces. -/
lemma sleeps_append (a b : List Req) :
    sleeps (a ++ b) = sleeps a + sleeps b := by
  simp [sleeps, List.filter_append]

/-- The registration stage never sleeps. -/
lemma sleeps_register_user (resp : Except PyErr JVal) :
    sleeps (register_user resp).1 = 0 := rfl

/-- The referral-registration stage never sleeps. -/
lemma sleeps_register_referral (resp : Except PyErr JVal) :
    sleeps (register_referral_user resp).1 = 0 := rfl

/-- The referral-link stage never sleeps. -/
lemma sleeps_add_referral (p d : Except PyErr JVal)
    (uid utok rid rtok : JVal) :
    sleeps (add_referral_and_delete p d uid utok rid rtok).1 = 0 := by
  cases p <;> cases d <;> rfl

/-- The license-swap stage never sleeps. -/
lemma sleeps_swap (p1 p2 : Except PyErr JVal) (keys : List (List String))
    (rand : Nat) (uid lic tok : JVal) :
    sleeps (swap_license_keys p1 p2 keys rand uid lic tok).1 = 0 := by
  rcases h : random_choice keys rand with e | k <;>
    cases p1 <;> cases p2 <;> simp [swap_license_keys, h, sleeps, is_sleep]

/-- The state-read stage never sleeps. -/
lemma sleeps_get (resp : Except PyErr JVal) (uid tok : JVal) :
    sleeps (get_updated_user_info resp uid tok).1 = 0 := rfl

/-- The account-delete stage never sleeps. -/
lemma sleeps_delete_user (resp : Except PyErr JVal) (uid tok : JVal) :
    sleeps (delete_user resp uid tok).1 = 0 := rfl

/-- No stage of the iteration body ever sleeps: pacing sleeps come only
from `apply_delay_if_needed`. -/
lemma sleeps_body (env : IterEnv) (keys : List (List String))
    (store : Store) :
    sleeps (generate_and_save_key_body env keys store).1 = 0 := by
  unfold generate_and_save_key_body
  rcases h1 : register_user env.regResp with ⟨t1, r1⟩
  have s1 : sleeps t1 = 0 := by
    have h := sleeps_register_user env.regResp
    rw [h1] at h
    exact h
  cases r1 with
  | error e => simpa using s1
  | ok v1 =>
    obtain ⟨user_id, initial_license, user_token⟩ := v1
    dsimp only
    rcases h2 : register_referral_user env.refResp with ⟨t2, r2⟩
    have s2 : sleeps t2 = 0 := by
      have h := sleeps_register_referral env.refResp
      rw [h2] at h
      exact h
    cases r2 with
    | error e => simp [sleeps_append, s1, s2]
    | ok v2 =>
      obtain ⟨referral_id, referral_token⟩ := v2
      dsimp only
      rcases h3 : add_referral_and_delete env.patchResp env.deleteReferralResp
          user_id user_token referral_id referral_token with ⟨t3, r3⟩
      have s3 : sleeps t3 = 0 := by
        have h := sleeps_add_referral env.patchResp env.deleteReferralResp
          user_id user_token referral_id referral_token
        rw [h3] at h
        exact h
      cases r3 with
      | error e => simp [sleeps_append, s1, s2, s3]
      | ok u3 =>
        dsimp only
        rcases h4 : swap_license_keys env.putProbeResp env.putRevertResp keys
            env.rand user_id initial_license user_token with ⟨t4, r4⟩
        have s4 : sleeps t4 = 0 := by
          have h := sleeps_swap env.putProbeResp env.putRevertResp keys
            env.rand user_id initial_license user_token
          rw [h4] at h
          exact h
        cases r4 with
        | error e => simp [sleeps_append, s1, s2, s3, s4]
        | ok u4 =>
          dsimp only
          rcases h5 : get_updated_user_info env.getResp user_id user_token
            with ⟨t5, r5⟩
          have s5 : sleeps t5 = 0 := by
            have h := sleeps_get env.getResp user_id user_token
            rw [h5] at h
            exact h
          cases r5 with
          | error e => simp [sleeps_append, s1, s2, s3, s4, s5]
          | ok v5 =>
            obtain ⟨rc, final_license, warp_plus, quota⟩ := v5
            dsimp only
            rcases h6 : delete_user env.deleteUserResp user_id user_token
              with ⟨t6, r6⟩
            have s6 : sleeps t6 = 0 := by
              have h := sleeps_delete_user env.deleteUserResp user_id
                user_token
              rw [h6] at h
              exact h
            cases r6 with
            | error e => simp [sleeps_append, s1, s2, s3, s4, s5, s6]
            | ok u6 =>
              dsimp only
              split <;> simp [sleeps_append, s1, s2, s3, s4, s5, s6]

/-- An iteration of `generate_and_save_key` never sleeps. -/
lemma sleeps_generate (env : IterEnv) (keys : List (List String))
    (store : Store) :
    sleeps (generate_and_save_key env keys store).1 = 0 := by
  unfold generate_and_save_key
  rcases h : generate_and_save_key_body env keys store with ⟨t, r⟩
  have hb := sleeps_body env keys store
  rw [h] at hb
  cases r <;> simpa using hb

/-- The trace `main_step` appends for iteration `i`. -/
lemma main_step_fst (envs : Nat → IterEnv) (keys : List (List String))
    (n : Nat) (acc : List (List Req) × Store) (i : Nat) :
    (main_step envs keys n acc i).1 =
      acc.1 ++ [(generate_and_save_key (envs i) keys acc.2).1 ++
        apply_delay_if_needed (i : Int) (n : Int)] := by
  unfold main_step
  rcases h : generate_and_save_key (envs i) keys acc.2 with ⟨t, s⟩
  simp [h]

/-- Folding `main_step` over any index list adds one trace entry per
index, whatever the environments return. -/
lemma foldl_main_step_length (envs : Nat → IterEnv)
    (keys : List (List String)) (n : Nat) :
    ∀ (l : List Nat) (acc : List (List Req) × Store),
      ((l.foldl (main_step envs keys n) acc).1).length =
        acc.1.length + l.length := by
  intro l
  induction l with
  | nil => intro acc; simp
  | cons i t ih =>
    intro acc
    rw [List.foldl_cons, ih, main_step_fst]
    simp
    omega

/-- Folding `main_step` adds exactly the pacing sleeps of
`apply_delay_if_needed`, since no stage sleeps. -/
lemma foldl_main_step_sleeps (envs : Nat → IterEnv)
    (keys : List (List String)) (n : Nat) :
    ∀ (l : List Nat) (acc : List (List Req) × Store),
      (((l.foldl (main_step envs keys n) acc).1).map sleeps).sum =
        (acc.1.map sleeps).sum +
        (l.map (fun (i : Nat) =>
          sleeps (apply_delay_if_needed (i : Int) (n : Int)))).sum := by
  intro l
  induction l with
  | nil => intro acc; simp
  | cons i t ih =>
    intro acc
    rw [List.foldl_cons, ih, main_step_fst]
    simp [sleeps_append, sleeps_generate]
    omega

/-- Sum of pacing sleeps over a whole batch of `n` iterations:
`n - 1`. -/
lemma delay_sum (n : Nat) (h : 1 ≤ n) :
    ((List.range n).map (fun (i : Nat) =>
      sleeps (apply_delay_if_needed (i : Int) (n : Int)))).sum = n - 1 := by
  obtain ⟨m, rfl⟩ : ∃ m, n = m + 1 := ⟨n - 1, by omega⟩
  rw [List.range_succ, List.map_append, List.sum_append]
  have hone : ∀ i ∈ List.range m,
      (fun (i : Nat) =>
        sleeps (apply_delay_if_needed (i : Int) ((m + 1 : Nat) : Int))) i
        = 1 := by
    intro i hi
    rw [List.mem_range] at hi
    have hne : i ≠ m := Nat.ne_of_lt hi
    simp [apply_delay_if_needed, sleeps, is_sleep, hne]
  rw [List.map_congr_left hone]
  simp [List.map_const, apply_delay_if_needed, sleeps]

/-! ## Claim theorems -/

/-- C9: `save_key_to_file` creates the collection empty when the file
is absent, and appending preserves all prior records and their order:
one append extends the sequence with the new record at the end, and two
appends in a row yield prior length + 2. -/
theorem c9_append_preserves_records :
    ∀ (l : List KeyInfo) (k1 k2 : KeyInfo),
      save_key_to_file none k1 = some [k1] ∧
      save_key_to_file (some l) k1 = some (l ++ [k1]) ∧
      save_key_to_file (save_key_to_file (some l) k1) k2 =
        some (l ++ [k1] ++ [k2]) ∧
      (l ++ [k1] ++ [k2]).length = l.length + 2 := by
  intro l k1 k2
  refine ⟨rfl, rfl, rfl, by simp⟩

/-- C3: with the singleton `keys` list of line 22, `swap_license_keys`
issues exactly two license-update requests in strict order — first the
probe value, then the revert — and the revert request carries the
original license captured at registration, so the last license update
of the iteration restores the original value; and when the probe call
itself raises, only the probe was issued, so the revert never precedes
the probe. -/
theorem c3_swap_two_puts_probe_then_revert :
    ∀ (pool : List String) (rand : Nat) (uid lic tok r1 r2 : JVal)
      (e : PyErr) (resp2 : Except PyErr JVal),
      swap_license_keys (.ok r1) (.ok r2) [pool] rand uid lic tok =
        ([Req.put ("/reg/" ++ pyStr uid ++ "/account")
            ("Bearer " ++ pyStr tok) [("license", pyStrList pool)],
          Req.put ("/reg/" ++ pyStr uid ++ "/account")
            ("Bearer " ++ pyStr tok) [("license", pyStr lic)]],
         .ok ()) ∧
      swap_license_keys (.error e) resp2 [pool] rand uid lic tok =
        ([Req.put ("/reg/" ++ pyStr uid ++ "/account")
            ("Bearer " ++ pyStr tok) [("license", pyStrList pool)]],
         .error e) := by
  intro pool rand uid lic tok r1 r2 e resp2
  constructor <;> simp [swap_license_keys, random_choice_singleton]

/-- C4: `add_referral_and_delete` issues the referral delete only after
the referrer-link patch: when the patch raises, the trace holds the
patch alone and the error propagates with no delete attempted; when the
patch succeeds, the trace is the patch followed by the delete. -/
theorem c4_delete_only_after_patch :
    ∀ (uid utok rid rtok : JVal) (e : PyErr)
      (deleteResp : Except PyErr JVal) (r : JVal),
      (add_referral_and_delete (.error e) deleteResp uid utok rid rtok =
        ([Req.patch ("/reg/" ++ pyStr uid) ("Bearer " ++ pyStr utok)
            [("referrer", pyStr rid)]], .error e)) ∧
      ((add_referral_and_delete (.ok r) deleteResp uid utok rid rtok).1 =
        [Req.patch ("/reg/" ++ pyStr uid) ("Bearer " ++ pyStr utok)
            [("referrer", pyStr rid)],
         Req.delete ("/reg/" ++ pyStr rid) ("Bearer " ++ pyStr rtok)]) := by
  intro uid utok rid rtok e deleteResp r
  refine ⟨rfl, ?_⟩
  cases deleteResp <;> rfl

/-- C10: the probe license is independent of the randomness source: for
any fixed `KEYS` configuration the whole behaviour of
`swap_license_keys` is the same for any two randomness draws, the list
`random.choice` draws from has exactly one element, and the first
request issued always carries the textual rendering of the entire split
key list as its license value. -/
theorem c10_probe_independent_of_randomness :
    ∀ (s : String) (rand rand2 : Nat) (uid lic tok : JVal)
      (putProbeResp putRevertResp : Except PyErr JVal),
      keys_of_env (some s) = .ok [py_split s ','] ∧
      [py_split s ','].length = 1 ∧
      swap_license_keys putProbeResp putRevertResp [py_split s ','] rand
          uid lic tok =
        swap_license_keys putProbeResp putRevertResp [py_split s ','] rand2
          uid lic tok ∧
      (swap_license_keys putProbeResp putRevertResp [py_split s ','] rand
          uid lic tok).1.head? =
        some (Req.put ("/reg/" ++ pyStr uid ++ "/account")
          ("Bearer " ++ pyStr tok)
          [("license", pyStrList (py_split s ','))]) := by
  intro s rand rand2 uid lic tok putProbeResp putRevertResp
  refine ⟨rfl, rfl, ?_, ?_⟩
  · simp [swap_license_keys, random_choice_singleton]
  · simp only [swap_license_keys, random_choice_singleton]
    cases putProbeResp <;> cases putRevertResp <;> rfl

/-- C7: with the pool configured as `KEYS="a,b"`, the probe sent by
`swap_license_keys` is the rendering of the whole list — never the
individual key `a` nor `b`, for any randomness draw — because line 22
wraps the split list in another list before `random.choice`. -/
theorem c7_probe_never_an_individual_key :
    ∀ rand : Nat,
      keys_of_env (some "a,b") = .ok [["a", "b"]] ∧
      random_choice [["a", "b"]] rand = .ok ["a", "b"] ∧
      (swap_license_keys (.ok .jnull) (.ok .jnull) [["a", "b"]] rand
          (.jint 1) (.jstr "L") (.jstr "T")).1 =
        [Req.put "/reg/1/account" "Bearer T"
           [("license", pyStrList ["a", "b"])],
         Req.put "/reg/1/account" "Bearer T" [("license", "L")]] ∧
      pyStrList ["a", "b"] ≠ "a" ∧
      pyStrList ["a", "b"] ≠ "b" := by
  intro rand
  refine ⟨rfl, random_choice_singleton _ rand, ?_, by decide, by decide⟩
  simp only [swap_license_keys, random_choice_singleton]
  decide

/-- C8 counterexample: with `KEYS` present but empty — an empty
configured candidate pool — the program does not fail: line 22 yields
the pool `[[""]]` and the batch runs, issuing a network request. -/
theorem c8_empty_pool_counterexample :
    keys_of_env (some "") = .ok [[""]] ∧
    run_program (some "") (fun _ => err_env) (some []) 1 =
      .ok ([[Req.post "/reg"]], some []) := by
  exact ⟨rfl, rfl⟩

/-- C8 amended: only an absent `KEYS` variable aborts the program — the
`AttributeError` from `None.split` at line 22 fires before `main`, so
before any iteration and any request; an empty `KEYS` string instead
yields the one-element pool holding the empty-string key and the batch
proceeds with no configuration error. -/
theorem c8_amended_missing_env_aborts :
    ∀ (envs : Nat → IterEnv) (store0 : Store) (n : Nat),
      run_program none envs store0 n = .error .attributeError ∧
      keys_of_env (some "") = .ok [[""]] :=
  fun _ _ _ => ⟨rfl, rfl⟩

/-- C2 counterexample: in a fully successful iteration whose read-back
license is `X` while the registration license was `L` (flag true, quota
3000), the appended record is `{'Quota': 3000, 'license': 'X'}`: it has
no field named `quota` (the field is `Quota`), and its license value is
the read-back value `X`, not the registration value `L`. -/
theorem c2_record_counterexample :
    (generate_and_save_key
        (good_env (.jint 7) (.jstr "L") (.jstr "T") (.jint 8) (.jstr "RT")
          (.jint 1) (.jstr "X") true 3000 0) [["k"]] (some [])).2 =
      some [[("Quota", JVal.jint 3000), ("license", JVal.jstr "X")]] ∧
    List.lookup "quota"
      [("Quota", JVal.jint 3000), ("license", JVal.jstr "X")] = none ∧
    List.lookup "license"
      [("Quota", JVal.jint 3000), ("license", JVal.jstr "X")] =
      some (JVal.jstr "X") ∧
    JVal.jstr "X" ≠ JVal.jstr "L" := by
  refine ⟨rfl, rfl, rfl, by simp⟩

/-- C1: on a successful iteration whose read-back state carries a
boolean premium flag `wp` and integer quota `q`, a record is appended
to the store if and only if `wp` is true and `q` is nonzero; for every
other combination the store is returned unchanged. -/
theorem c1_persist_iff_eligible :
    ∀ (uid lic tok rid rtok rc flic : JVal) (wp : Bool) (q : Int)
      (rand : Nat) (pool : List String) (l : List KeyInfo),
      ((generate_and_save_key
          (good_env uid lic tok rid rtok rc flic wp q rand)
          [pool] (some l)).2 =
        some (l ++ [[("Quota", JVal.jint q), ("license", flic)]]) ↔
        (wp = true ∧ q ≠ 0)) ∧
      (¬(wp = true ∧ q ≠ 0) →
        (generate_and_save_key
            (good_env uid lic tok rid rtok rc flic wp q rand)
            [pool] (some l)).2 = some l) := by
  intro uid lic tok rid rtok rc flic wp q rand pool l
  rw [generate_good_env]
  by_cases hc : wp = true ∧ q ≠ 0
  · have hb : (wp && (q != 0)) = true := by
      rcases hc with ⟨h1, h2⟩
      subst h1
      simpa using h2
    simp [hb, hc]
  · have hb : (wp && (q != 0)) = false := by
      rcases Bool.eq_false_or_eq_true wp with h | h <;> subst h <;> simp_all
    simp [hb, hc]

/-- C1 witness: with the flag false and quota 3000 the store is
unchanged. -/
theorem c1_persist_iff_eligible_witness :
    (generate_and_save_key
        (good_env (.jint 7) (.jstr "L") (.jstr "T") (.jint 8) (.jstr "RT")
          (.jint 1) (.jstr "X") false 3000 0) [["k"]] (some [])).2 =
      some [] :=
  (c1_persist_iff_eligible (.jint 7) (.jstr "L") (.jstr "T") (.jint 8)
      (.jstr "RT") (.jint 1) (.jstr "X") false 3000 0 ["k"] []).2 (by decide)

/-- C2 amended: when the eligibility predicate holds, the appended
record is `{'Quota': state.quota, 'license': state.license}` — the
quota field is named `Quota` (capital Q), and the license stored is the
value read back by the Entitlement Reader, which need not equal the
license captured at registration. -/
theorem c2_record_amended :
    ∀ (uid lic tok rid rtok rc flic : JVal) (q : Int) (rand : Nat)
      (pool : List String) (l : List KeyInfo),
      q ≠ 0 →
      (generate_and_save_key
          (good_env uid lic tok rid rtok rc flic true q rand)
          [pool] (some l)).2 =
        some (l ++ [[("Quota", JVal.jint q), ("license", flic)]]) := by
  intro uid lic tok rid rtok rc flic q rand pool l hq
  rw [generate_good_env]
  have hb : (true && (q != 0)) = true := by simpa using hq
  simp [hb]

/-- C2 amended witness: flag true, quota 3000, read-back license `X`
with registration license `L`: the record `{'Quota': 3000,
'license': 'X'}` is appended. -/
theorem c2_record_amended_witness :
    (generate_and_save_key
        (good_env (.jint 7) (.jstr "L") (.jstr "T") (.jint 8) (.jstr "RT")
          (.jint 1) (.jstr "X") true 3000 0) [["k"]] (some [])).2 =
      some [[("Quota", JVal.jint 3000), ("license", JVal.jstr "X")]] :=
  c2_record_amended (.jint 7) (.jstr "L") (.jstr "T") (.jint 8) (.jstr "RT")
    (.jint 1) (.jstr "X") 3000 0 ["k"] [] (by decide)

/-- C5: errors never halt the batch: whatever responses or exceptions
the environments supply for any stage of any iteration — including
arbitrary failures in any iteration `k` — `main` still produces exactly
one trace entry per requested iteration, so iteration `k + 1` always
runs.  The `try`/`except` of `generate_and_save_key` makes each
iteration total: its embedding returns a plain pair, never an
exception. -/
theorem c5_errors_never_halt_batch :
    ∀ (envs : Nat → IterEnv) (keys : List (List String)) (store0 : Store)
      (n : Nat),
      ((main envs keys store0 n).1).length = n := by
  intro envs keys store0 n
  unfold main
  rw [foldl_main_step_length]
  simp

/-- C6: for every batch of `n ≥ 1` iterations, exactly `n - 1` pacing
sleeps occur across the whole run, and the last iteration's trace entry
contains no sleep — the last iteration is never followed by a delay
(for `n = 1`, `1 - 1 = 0` delays). -/
theorem c6_pacing_delays :
    ∀ (envs : Nat → IterEnv) (keys : List (List String)) (store0 : Store)
      (n : Nat),
      1 ≤ n →
      ((main envs keys store0 n).1.map sleeps).sum = n - 1 ∧
      ∀ t, (main envs keys store0 n).1.getLast? = some t → sleeps t = 0 := by
  intro envs keys store0 n h
  constructor
  · unfold main
    rw [foldl_main_step_sleeps]
    simpa using delay_sum n h
  · obtain ⟨m, rfl⟩ : ∃ m, n = m + 1 := ⟨n - 1, by omega⟩
    intro t ht
    unfold main at ht
    rw [List.range_succ, List.foldl_append, List.foldl_cons, List.foldl_nil,
      main_step_fst, List.getLast?_concat] at ht
    obtain rfl := Option.some.inj ht
    rw [sleeps_append, sleeps_generate]
    simp [apply_delay_if_needed, sleeps]

/-- C6 witness: a concrete batch of three iterations (every stage
failing) has exactly two pacing sleeps, and its last iteration's trace
— the single registration request — holds none. -/
theorem c6_pacing_delays_witness :
    ((main (fun _ => err_env) [["k"]] (some []) 3).1.map sleeps).sum = 3 - 1 ∧
    sleeps [Req.post "/reg"] = 0 := by
  have h := c6_pacing_delays (fun _ => err_env) [["k"]] (some []) 3 (by decide)
  exact ⟨h.1, h.2 [Req.post "/reg"] (by rfl)⟩

end WarpKeys
